import Mathlib

/-!
# EchoTranslate — verification of the session lifecycle, history store,
# translation invoker and audio encoder

A shallow embedding of the repo-authored logic of `src/App.tsx` (the
`src/unnamed/part_000` variant agrees on every function modelled here).
Pure helpers become Lean functions; the React component state becomes an
explicit `AppState` record threaded through the event handlers; the
suspension points of the `async` functions (every `await`) are modelled
explicitly where a caller continues past an un-awaited call, since that
interleaving is observable.

Two ghost fields instrument the state for the observable effects the
claims speak about: `trace` records every `setRecordingState` call in
order, and `requests` records every translation request handed to the
remote `generateContent` call (source text and resolved language name).
Neither ghost field influences any computation.
-/

namespace EchoTranslate

/-- `RecordingState` from `src/types.ts` (inlined at the end of
`src/App.tsx`). -/
inductive RecordingState where
  | idle
  | requestingPermission
  | recording
  | stopping
  | translating
  | error
deriving DecidableEq, Repr

/-- `HistoryEntry` from `src/types.ts`.  The `id` field in the source is
`new Date().toISOString()` and `timestamp` is `new Date().toLocaleString()`;
both are injective encodings of the millisecond clock at the time of the
append, so we model each by the clock value itself. -/
structure HistoryEntry where
  id : Nat
  timestamp : Nat
  transcribedText : String
  translatedText : String
  targetLanguage : String
deriving DecidableEq, Repr

/-- The argument of `saveToHistory`: a `HistoryEntry` without the id and
timestamp fields (the `Omit` type in the source). -/
structure HistoryEntryData where
  transcribedText : String
  translatedText : String
  targetLanguage : String
deriving DecidableEq, Repr

/-- A `{code, name}` pair from `src/types.ts`. -/
structure Language where
  code : String
  name : String
deriving DecidableEq, Repr

/-- Modelled from the spec: the language catalogue `TARGET_LANGUAGES`
lives in `src/constants.tsx`, which is not among the provided sources.
No claim depends on its contents — only the resolution rule in
`translateText` (look the code up, fall back to the code itself) matters —
so a one-entry catalogue holding the default UI language `es` stands in
for it. -/
def TARGET_LANGUAGES : List Language :=
  [{ code := "es", name := "Spanish" }]

/-- `TARGET_LANGUAGES.find(l => l.code === language)?.name || language`
from `translateText` (src/App.tsx line 123).  The JavaScript `||` also
falls back when the found name is the empty string. -/
def resolveLanguageName (language : String) : String :=
  match TARGET_LANGUAGES.find? (fun l => l.code == language) with
  | some l => if l.name = "" then language else l.name
  | none => language

/-- The characters removed by JavaScript `String.prototype.trim`:
WhiteSpace (TAB, VT, FF, SP, NBSP, ZWNBSP and the Unicode Zs category)
and LineTerminator (LF, CR, LS, PS). -/
def isJsWhitespace (c : Char) : Bool :=
  [0x9, 0xA, 0xB, 0xC, 0xD, 0x20, 0xA0, 0x1680,
   0x2000, 0x2001, 0x2002, 0x2003, 0x2004, 0x2005, 0x2006, 0x2007,
   0x2008, 0x2009, 0x200A, 0x2028, 0x2029, 0x202F, 0x205F, 0x3000,
   0xFEFF].contains c.toNat

/-- JavaScript `text.trim()`: strip leading and trailing `isJsWhitespace`
characters. -/
def jsTrim (t : String) : String :=
  String.mk (((t.toList.dropWhile isJsWhitespace).reverse.dropWhile
    isJsWhitespace).reverse)

/-! ## Audio encoder (`createBlob`, src/App.tsx lines 20-30)

Sample values of the input `Float32Array` are modelled as rationals
(every IEEE-754 value is rational, and multiplication by the power of
two 32768 is exact).  Assigning `data[i] * 32768` to an `Int16Array`
element performs the ECMAScript ToInt16 conversion: truncate toward
zero, then wrap modulo 2^16 into the signed 16-bit range.  The byte
envelope base64-encodes the little-endian bytes of the resulting
`Int16Array`; that encoding is injective in the list of 16-bit values,
so the model keeps the list itself together with the mime type. -/

/-- ECMAScript ToIntegerOrInfinity on a finite value: truncation toward
zero. -/
def jsTruncate (q : ℚ) : ℤ :=
  if 0 ≤ q then ⌊q⌋ else ⌈q⌉

/-- Wrap an integer modulo 2^16 into the signed 16-bit range
[-32768, 32767] (the second half of ECMAScript ToInt16). -/
def wrapInt16 (i : ℤ) : ℤ :=
  let m := i % 65536
  if 32768 ≤ m then m - 65536 else m

/-- ECMAScript ToInt16 of a finite number. -/
def toInt16 (q : ℚ) : ℤ :=
  wrapInt16 (jsTruncate q)

/-- The transport envelope returned by `createBlob`: the 16-bit sample
values (before base64 encoding of their little-endian bytes) and the
mime type. -/
structure Blob where
  data : List ℤ
  mimeType : String
deriving DecidableEq, Repr

/-- `createBlob` (src/App.tsx lines 20-30): `int16[i] = data[i] * 32768`
for each sample, mime type `audio/pcm;rate=16000`. -/
def createBlob (data : List ℚ) : Blob :=
  { data := data.map (fun s => toInt16 (s * 32768))
    mimeType := "audio/pcm;rate=16000" }

/-! ## Application state -/

/-- The component state of `App` together with the refs that hold
resources, and the two ghost observation fields.

* `recordingState`, `transcribedText`, `translatedText`, `targetLanguage`,
  `error`, `history` are the React `useState` values of the same names.
* `storage` is the content of the `transcriptionHistory` localStorage key
  (`none` when the key is absent).
* `currentTranscription` is `currentTranscriptionRef.current`.
* `sessionOpen` models `sessionPromiseRef.current` being non-null with an
  open live session; `streamActive`, `scriptProcessorConnected`,
  `mediaSourceConnected`, `audioContextOpen` model the corresponding refs
  holding live resources.  (`recordingStateRef` mirrors `recordingState`
  and is read as current; no claim exercises the one-render lag window.)
* `trace` (ghost): every value passed to `setRecordingState`, in order.
* `requests` (ghost): every translation request issued to the remote
  model, as (source text, resolved language name).

The file-upload path of `src/App.tsx` (audio file, player, one-shot file
transcription) is not modelled: no claim depends on it. -/
structure AppState where
  recordingState : RecordingState
  transcribedText : String
  translatedText : String
  targetLanguage : String
  error : Option String
  history : List HistoryEntry
  storage : Option (List HistoryEntry)
  currentTranscription : String
  sessionOpen : Bool
  streamActive : Bool
  scriptProcessorConnected : Bool
  mediaSourceConnected : Bool
  audioContextOpen : Bool
  trace : List RecordingState
  requests : List (String × String)
deriving DecidableEq, Repr

/-- `setRecordingState`, with the ghost trace recording the transition. -/
def setRecordingState (st : RecordingState) (s : AppState) : AppState :=
  { s with recordingState := st, trace := s.trace ++ [st] }

/-- The fresh `HistoryEntry` built inside `saveToHistory` at millisecond
clock `clock`. -/
def newHistoryEntry (entry : HistoryEntryData) (clock : Nat) : HistoryEntry :=
  { id := clock
    timestamp := clock
    transcribedText := entry.transcribedText
    translatedText := entry.translatedText
    targetLanguage := entry.targetLanguage }

/-- `saveToHistory` (src/App.tsx lines 98-113): prepend a fresh entry,
keep the 20 most recent, then try to persist; a persist failure
(`persistOk = false`) is caught and only logged, and the updated list is
returned (remains the in-memory state) either way. -/
def saveToHistory (entry : HistoryEntryData) (clock : Nat) (persistOk : Bool)
    (s : AppState) : AppState :=
  let updatedHistory := (newHistoryEntry entry clock :: s.history).take 20
  let storage := if persistOk then some updatedHistory else s.storage
  { s with history := updatedHistory, storage := storage }

/-- `deleteHistoryItem` (src/App.tsx lines 376-382): filter the entry
out and persist — with no try/catch, so a failing `localStorage.setItem`
throws out of the state updater and the in-memory update is lost; the
result is therefore an `Except`. -/
def deleteHistoryItem (id : Nat) (persistOk : Bool) (s : AppState) :
    Except String AppState :=
  let newHistory := s.history.filter (fun item => item.id ≠ id)
  if persistOk then
    Except.ok { s with history := newHistory, storage := some newHistory }
  else
    Except.error ("Failed to save history to localStorage")

/-! ## Translation invoker (`translateText`, src/App.tsx lines 115-146)

The remote `generateContent` call is the single suspension point of
`translateText`; its outcome is a parameter.  `translateTextStart` is
the synchronous prefix up to and including issuing the request;
`translateTail` is the continuation after the response (or rejection)
arrives, including the `finally` block. -/

/-- Outcome of the awaited remote `generateContent` call. -/
inductive TransOutcome where
  | success (translation : String)
  | failure (msg : String)
deriving DecidableEq, Repr

/-- Synchronous prefix of `translateText` after the emptiness guard:
enter TRANSLATING, show the placeholder, clear the error, and issue the
request (recorded in the ghost `requests`). -/
def translateTextStart (text language : String) (s : AppState) : AppState :=
  let s := setRecordingState RecordingState.translating s
  let s := { s with translatedText := "Translating...", error := none }
  { s with requests := s.requests ++ [(text, resolveLanguageName language)] }

/-- Continuation of `translateText` after the remote call settles: on
success show the translation and append to history; on failure set the
diagnostic and clear the translation display; in both cases the
`finally` block returns the state to IDLE. -/
def translateTail (text language : String) (outcome : TransOutcome)
    (clock : Nat) (persistOk : Bool) (s : AppState) : AppState :=
  match outcome with
  | TransOutcome.success translation =>
      let s := { s with translatedText := translation }
      let s := saveToHistory
        { transcribedText := text
          translatedText := translation
          targetLanguage := resolveLanguageName language } clock persistOk s
      setRecordingState RecordingState.idle s
  | TransOutcome.failure msg =>
      let s := { s with
        error := some ("Translation failed: " ++ msg)
        translatedText := "" }
      setRecordingState RecordingState.idle s

/-- `translateText`: a no-op when the trimmed input is empty, otherwise
the prefix followed by the continuation. -/
def translateText (text language : String) (outcome : TransOutcome)
    (clock : Nat) (persistOk : Bool) (s : AppState) : AppState :=
  if jsTrim text = "" then s
  else translateTail text language outcome clock persistOk
    (translateTextStart text language s)

/-! ## Stopping sequence (`stopRecording`, src/App.tsx lines 148-184) -/

/-- The release of the local audio nodes inside `stopRecording`:
stop the tracks of the media stream, disconnect the script processor,
disconnect the media stream source (each guarded on the ref being
non-null, and each ref nulled afterwards). -/
def releaseLocalNodes (s : AppState) : AppState :=
  let s := if s.streamActive then { s with streamActive := false } else s
  let s := if s.scriptProcessorConnected then
    { s with scriptProcessorConnected := false } else s
  if s.mediaSourceConnected then { s with mediaSourceConnected := false } else s

/-- Tail of `stopRecording` after all release steps: if the transcript
buffer is non-blank, flush it into the transcript display and invoke
`translateText` on it; otherwise return to IDLE. -/
def stopTail (outcome : TransOutcome) (clock : Nat) (persistOk : Bool)
    (s : AppState) : AppState :=
  if jsTrim s.currentTranscription ≠ "" then
    let finalText := s.currentTranscription
    let s := { s with currentTranscription := "", transcribedText := finalText }
    translateText finalText s.targetLanguage outcome clock persistOk s
  else
    setRecordingState RecordingState.idle s

/-- The body of `stopRecording` after STOPPING has been entered: close
the remote session (after awaiting the session promise), release the
local nodes, close the audio context if not already closed, then the
tail. -/
def stopRelease (outcome : TransOutcome) (clock : Nat) (persistOk : Bool)
    (s : AppState) : AppState :=
  let s := if s.sessionOpen then { s with sessionOpen := false } else s
  let s := releaseLocalNodes s
  let s := if s.audioContextOpen then { s with audioContextOpen := false } else s
  stopTail outcome clock persistOk s

/-- `stopRecording`: a no-op unless the current state is RECORDING
(guard on `recordingStateRef.current`), otherwise enter STOPPING and run
the release sequence. -/
def stopRecording (outcome : TransOutcome) (clock : Nat) (persistOk : Bool)
    (s : AppState) : AppState :=
  if s.recordingState ≠ RecordingState.recording then s
  else stopRelease outcome clock persistOk
    (setRecordingState RecordingState.stopping s)

/-! ## Live-session callbacks -/

/-- The fields of a `LiveServerMessage` the handler reads:
`serverContent?.inputTranscription?.text` and
`serverContent?.turnComplete`. -/
structure LiveServerMessage where
  inputTranscription : Option String
  turnComplete : Bool
deriving DecidableEq, Repr

/-- `handleMessage` (src/App.tsx lines 186-195): append any transcript
fragment to the buffer and mirror it to the display; on `turnComplete`
invoke `stopRecording`.  Nothing in `handleMessage` runs after the
un-awaited `stopRecording()` call, so running it to completion here is
faithful. -/
def handleMessage (message : LiveServerMessage) (outcome : TransOutcome)
    (clock : Nat) (persistOk : Bool) (s : AppState) : AppState :=
  let s :=
    match message.inputTranscription with
    | some text =>
        let c := s.currentTranscription ++ text
        { s with currentTranscription := c, transcribedText := c }
    | none => s
  if message.turnComplete then stopRecording outcome clock persistOk s else s

/-- `handleError` (src/App.tsx lines 197-202): set the diagnostic, call
`stopRecording()` WITHOUT awaiting it, then `setRecordingState(ERROR)`.
Because the call is not awaited, ERROR is set at the first suspension
point (`await`) that `stopRecording` reaches — or after it returns, if
it never suspends — and the remainder of `stopRecording` runs
afterwards.  The branches below follow where that first `await` sits:
awaiting the session promise when a session is open; otherwise awaiting
`audioContext.close()`; otherwise inside `translateText` at the remote
call; otherwise `stopRecording` completes synchronously before ERROR is
set. -/
def handleError (msg : String) (outcome : TransOutcome) (clock : Nat)
    (persistOk : Bool) (s : AppState) : AppState :=
  let s := { s with
    error := some ("An error occurred: " ++ msg ++ ". Please try again.") }
  if s.recordingState ≠ RecordingState.recording then
    setRecordingState RecordingState.error s
  else
    let s := setRecordingState RecordingState.stopping s
    if s.sessionOpen then
      stopRelease outcome clock persistOk (setRecordingState RecordingState.error s)
    else
      let s := releaseLocalNodes s
      if s.audioContextOpen then
        stopTail outcome clock persistOk
          (setRecordingState RecordingState.error { s with audioContextOpen := false })
      else if jsTrim s.currentTranscription ≠ "" then
        let finalText := s.currentTranscription
        let s := { s with currentTranscription := "", transcribedText := finalText }
        let s := translateTextStart finalText s.targetLanguage s
        translateTail finalText s.targetLanguage outcome clock persistOk
          (setRecordingState RecordingState.error s)
      else
        setRecordingState RecordingState.error
          (setRecordingState RecordingState.idle s)

/-! ## Start (`startRecording`, src/App.tsx lines 204-265) -/

/-- Outcome of awaiting `getUserMedia` and establishing the live
session. -/
inductive StartOutcome where
  | granted
  | permissionDenied
  | failure (msg : String)
deriving DecidableEq, Repr

/-- `startRecording` restricted to the streaming path (the clearing of a
loaded audio file is part of the unmodelled file-upload path): toggle
into `stopRecording` when already RECORDING, otherwise clear the
per-attempt state, request permission, and on success let `onopen` enter
RECORDING and build the audio graph; on failure report a
permission-specific or generic diagnostic and enter ERROR. -/
def startRecording (outcome : StartOutcome) (tOutcome : TransOutcome)
    (clock : Nat) (persistOk : Bool) (s : AppState) : AppState :=
  if s.recordingState = RecordingState.recording then
    stopRecording tOutcome clock persistOk s
  else
    let s := setRecordingState RecordingState.requestingPermission s
    let s := { s with
      error := none
      transcribedText := ""
      translatedText := ""
      currentTranscription := "" }
    match outcome with
    | StartOutcome.granted =>
        let s := { s with streamActive := true }
        let s := { s with sessionOpen := true }
        let s := setRecordingState RecordingState.recording s
        { s with
          audioContextOpen := true
          mediaSourceConnected := true
          scriptProcessorConnected := true }
    | StartOutcome.permissionDenied =>
        setRecordingState RecordingState.error { s with
          error := some ("Microphone permission denied. Please allow microphone access in your browser settings.") }
    | StartOutcome.failure m =>
        setRecordingState RecordingState.error { s with
          error := some ("Failed to start recording: " ++ m) }

/-- The initial component state: IDLE, everything empty, target language
`es`, no resources held. -/
def initialState : AppState :=
  { recordingState := RecordingState.idle
    transcribedText := ""
    translatedText := ""
    targetLanguage := "es"
    error := none
    history := []
    storage := none
    currentTranscription := ""
    sessionOpen := false
    streamActive := false
    scriptProcessorConnected := false
    mediaSourceConnected := false
    audioContextOpen := false
    trace := []
    requests := [] }

/-! ## Concrete scenario states used by the closed theorems -/

/-- The state reached by a successful `startRecording` from the initial
state (the `onopen` callback has fired): RECORDING with all resources
held and an empty transcript buffer. -/
def recordingStartedState : AppState :=
  startRecording StartOutcome.granted (TransOutcome.success ("x")) 0 true
    initialState

/-- The streaming scenario of the spec: start, fragments `Hello` and
` world`, then the end-of-turn signal, with the remote translation
succeeding. -/
def streamingScenarioFinal : AppState :=
  handleMessage { inputTranscription := none, turnComplete := true }
    (TransOutcome.success ("Hola mundo")) 0 true
    (handleMessage { inputTranscription := some (" world"), turnComplete := false }
      (TransOutcome.success ("Hola mundo")) 0 true
      (handleMessage { inputTranscription := some ("Hello"), turnComplete := false }
        (TransOutcome.success ("Hola mundo")) 0 true recordingStartedState))

/-- An asynchronous transport error delivered in `recordingStartedState`. -/
def errorWhileRecordingFinal : AppState :=
  handleError ("Network failure") (TransOutcome.success ("x")) 0 true
    recordingStartedState

/-- 25 sequential appends to an empty history, append number i carrying
text `toString i` at clock i. -/
def twentyFiveAppendsFinal : AppState :=
  (List.range 25).foldl (fun s i =>
    saveToHistory
      { transcribedText := toString (i + 1)
        translatedText := "t"
        targetLanguage := "l" } (i + 1) true s) initialState

/-- Two appends performed at the same millisecond clock value 5. -/
def sameClockTwiceFinal : AppState :=
  saveToHistory
    { transcribedText := "b", translatedText := "", targetLanguage := "" } 5 true
    (saveToHistory
      { transcribedText := "a", translatedText := "", targetLanguage := "" } 5 true
      initialState)

/-- A state whose history holds exactly one entry, with id 1. -/
def singletonHistoryState : AppState :=
  saveToHistory
    { transcribedText := "a", translatedText := "b", targetLanguage := "c" } 1 true
    initialState

/-! ## Helper lemmas -/

/-- Wrapping modulo 2^16 is the identity on the signed 16-bit range. -/
theorem wrapInt16_eq_self (i : ℤ) (h1 : -32768 ≤ i) (h2 : i < 32768) :
    wrapInt16 i = i := by
  simp only [wrapInt16]
  split <;> omega

/-- Truncation toward zero of a value strictly inside (-32768, 32768)
lands inside the signed 16-bit range. -/
theorem jsTruncate_bounds {q : ℚ} (h1 : -32768 < q) (h2 : q < 32768) :
    -32768 ≤ jsTruncate q ∧ jsTruncate q < 32768 := by
  unfold jsTruncate
  split
  · refine ⟨?_, ?_⟩
    · have h0 : (0 : ℤ) ≤ ⌊q⌋ := Int.floor_nonneg.mpr (by assumption)
      omega
    · exact Int.floor_lt.mpr (by exact_mod_cast h2)
  · refine ⟨?_, ?_⟩
    · have hc : (-32768 : ℤ) < ⌈q⌉ := Int.lt_ceil.mpr (by exact_mod_cast h1)
      omega
    · have hq : q ≤ 0 := le_of_lt (lt_of_not_ge (by assumption))
      have hc : ⌈q⌉ ≤ 0 := Int.ceil_le.mpr (by exact_mod_cast hq)
      omega

/-- In the signed 16-bit range, ToInt16 is plain truncation. -/
theorem toInt16_eq_jsTruncate {q : ℚ} (h1 : -32768 < q) (h2 : q < 32768) :
    toInt16 q = jsTruncate q := by
  obtain ⟨hl, hr⟩ := jsTruncate_bounds h1 h2
  exact wrapInt16_eq_self _ hl hr

/-- A trimmed all-whitespace string is empty. -/
theorem jsTrim_eq_empty_of_whitespace {text : String}
    (h : ∀ c ∈ text.toList, isJsWhitespace c) : jsTrim text = "" := by
  unfold jsTrim
  rw [List.dropWhile_eq_nil_iff.mpr h]
  rfl

/-! ## Claim theorems -/

/-- Claim C1: in the streaming session lifecycle, starting a recording,
receiving the transcript fragments `Hello` then ` world` and then the
end-of-turn signal yields a final transcript equal to `Hello world`, a
state trace passing through Recording, Stopping, Translating and Idle,
and exactly one translation request, issued with source text
`Hello world`. -/
theorem streaming_turn_scenario :
    streamingScenarioFinal.transcribedText = "Hello world" ∧
    streamingScenarioFinal.trace =
      [RecordingState.requestingPermission, RecordingState.recording,
       RecordingState.stopping, RecordingState.translating, RecordingState.idle] ∧
    streamingScenarioFinal.recordingState = RecordingState.idle ∧
    streamingScenarioFinal.requests = [("Hello world", "Spanish")] := by
  decide

/-- Claim C2 (evaluation at the failing input): an asynchronous
transport error delivered while Recording does run the full release
sequence and sets the diagnostic, but the session state afterwards is
Idle, not Error.  `handleError` calls `stopRecording()` without awaiting
it and then sets ERROR; since `stopRecording` suspends at its first
`await` (the session promise is non-null while Recording), ERROR is set
during that suspension and the tail of `stopRecording` then overwrites
it with IDLE, as the trace shows. -/
theorem handleError_while_recording_ends_idle :
    recordingStartedState.recordingState = RecordingState.recording ∧
    errorWhileRecordingFinal.sessionOpen = false ∧
    errorWhileRecordingFinal.streamActive = false ∧
    errorWhileRecordingFinal.scriptProcessorConnected = false ∧
    errorWhileRecordingFinal.mediaSourceConnected = false ∧
    errorWhileRecordingFinal.audioContextOpen = false ∧
    errorWhileRecordingFinal.error =
      some ("An error occurred: Network failure. Please try again.") ∧
    errorWhileRecordingFinal.trace =
      [RecordingState.requestingPermission, RecordingState.recording,
       RecordingState.stopping, RecordingState.error, RecordingState.idle] ∧
    errorWhileRecordingFinal.recordingState = RecordingState.idle := by
  decide

/-- Claim C3: for any source text that a remote call is actually made
for (non-blank after trimming), the session state is Idle when the
invoker returns, whatever the outcome; and on failure the translated
text display is cleared and a diagnostic derived from the failure is
set. -/
theorem translateText_outcome_cleanup (text language : String)
    (outcome : TransOutcome) (clock : Nat) (persistOk : Bool) (s : AppState)
    (h : jsTrim text ≠ "") :
    (translateText text language outcome clock persistOk s).recordingState =
      RecordingState.idle ∧
    ∀ m, outcome = TransOutcome.failure m →
      (translateText text language outcome clock persistOk s).translatedText = "" ∧
      (translateText text language outcome clock persistOk s).error =
        some ("Translation failed: " ++ m) := by
  unfold translateText
  rw [if_neg h]
  refine ⟨?_, ?_⟩
  · cases outcome <;>
      simp [translateTail, translateTextStart, setRecordingState, saveToHistory]
  · rintro m rfl
    simp [translateTail, translateTextStart, setRecordingState]

/-- Witness for C3 at the text `Hello` with a failing remote call. -/
theorem translateText_outcome_cleanup_witness :
    jsTrim "Hello" ≠ "" ∧
    ((translateText "Hello" "es" (TransOutcome.failure ("boom")) 0 true
        initialState).recordingState = RecordingState.idle ∧
     ∀ m, TransOutcome.failure ("boom") = TransOutcome.failure m →
      (translateText "Hello" "es" (TransOutcome.failure ("boom")) 0 true
        initialState).translatedText = "" ∧
      (translateText "Hello" "es" (TransOutcome.failure ("boom")) 0 true
        initialState).error = some ("Translation failed: " ++ m)) :=
  ⟨by decide,
   translateText_outcome_cleanup "Hello" "es" (TransOutcome.failure ("boom")) 0
     true initialState (by decide)⟩

/-- Claim C4 counterexample: the sample 7/131072 (a Float32-representable
value, times 32768 giving 1.75) encodes to 1, while round(1.75) = 2 —
the encoder does not round. -/
theorem createBlob_not_round :
    (createBlob [(7 : ℚ)/131072]).data ≠ [round (((7 : ℚ)/131072) * 32768)] := by
  have h1 : (createBlob [(7 : ℚ)/131072]).data = [1] := by
    norm_num [createBlob, toInt16, jsTruncate, wrapInt16]
  have h2 : round (((7 : ℚ)/131072) * 32768) = 2 := by
    norm_num [round_eq]
  rw [h1, h2]
  decide

/-- Claim C4 as amended: each sample s maps to the truncation toward
zero of s * 32768, wrapped into the signed 16-bit range with no explicit
clamping — for s strictly inside (-1, 1) this is plain truncation, and
the out-of-range sample 3/2 (whose scaled truncation 49152 exceeds the
16-bit maximum) wraps around to -16384. -/
theorem createBlob_truncates (s : ℚ) (h1 : -1 < s) (h2 : s < 1) :
    createBlob [s] =
      { data := [jsTruncate (s * 32768)]
        mimeType := "audio/pcm;rate=16000" } ∧
    createBlob [(3 : ℚ)/2] =
      { data := [-16384], mimeType := "audio/pcm;rate=16000" } := by
  constructor
  · have hl : (-32768 : ℚ) < s * 32768 := by nlinarith
    have hr : s * 32768 < 32768 := by nlinarith
    simp [createBlob, toInt16_eq_jsTruncate hl hr]
  · norm_num [createBlob, toInt16, jsTruncate, wrapInt16]

/-- Witness for the amended C4 at the in-range sample 7/131072. -/
theorem createBlob_truncates_witness :
    (-1 : ℚ) < 7/131072 ∧ (7 : ℚ)/131072 < 1 ∧
    (createBlob [(7 : ℚ)/131072] =
      { data := [jsTruncate (((7 : ℚ)/131072) * 32768)]
        mimeType := "audio/pcm;rate=16000" } ∧
     createBlob [(3 : ℚ)/2] =
      { data := [-16384], mimeType := "audio/pcm;rate=16000" }) :=
  ⟨by norm_num, by norm_num,
   createBlob_truncates ((7 : ℚ)/131072) (by norm_num) (by norm_num)⟩

/-- Claim C5: after 25 sequential appends to an empty history, exactly
20 entries remain; they are the 20 most recently appended (appends 25
down to 6) and are ordered newest-first. -/
theorem history_bounded_newest_first :
    twentyFiveAppendsFinal.history.length = 20 ∧
    twentyFiveAppendsFinal.history.map HistoryEntry.id =
      [25, 24, 23, 22, 21, 20, 19, 18, 17, 16, 15, 14, 13, 12, 11, 10, 9, 8, 7, 6] ∧
    twentyFiveAppendsFinal.history.map HistoryEntry.transcribedText =
      ["25", "24", "23", "22", "21", "20", "19", "18", "17", "16",
       "15", "14", "13", "12", "11", "10", "9", "8", "7", "6"] := by
  decide

/-- Claim C6 counterexample: two appends at the same millisecond clock
value (5) produce two entries whose ids are both the encoding of 5 — the
ids are not distinct. -/
theorem saveToHistory_same_clock_collision :
    sameClockTwiceFinal.history.map HistoryEntry.id = [5, 5] ∧
    ¬ (sameClockTwiceFinal.history.map HistoryEntry.id).Nodup := by
  decide

/-- Claim C6 as amended: an append assigns the new entry an id derived
injectively from the millisecond clock, so the new id is distinct from
the id of every retained entry provided no existing entry was appended
at the same clock value; the new entry sits at the head of the list. -/
theorem saveToHistory_fresh_clock_unique_id (entry : HistoryEntryData)
    (clock : Nat) (persistOk : Bool) (s : AppState)
    (h : ∀ e ∈ s.history, e.id ≠ clock) :
    (saveToHistory entry clock persistOk s).history =
      newHistoryEntry entry clock :: s.history.take 19 ∧
    ∀ e ∈ s.history.take 19, e.id ≠ (newHistoryEntry entry clock).id := by
  constructor
  · simp only [saveToHistory]
    rw [show (20 : Nat) = 19 + 1 from rfl, List.take_succ_cons]
  · intro e he
    exact h e (List.take_subset 19 s.history he)

/-- Witness for the amended C6: an append at clock 3 onto a history
holding one entry with id 1. -/
theorem saveToHistory_fresh_clock_unique_id_witness :
    (∀ e ∈ singletonHistoryState.history, e.id ≠ 3) ∧
    ((saveToHistory
        { transcribedText := "d", translatedText := "e", targetLanguage := "f" }
        3 true singletonHistoryState).history =
      newHistoryEntry
        { transcribedText := "d", translatedText := "e", targetLanguage := "f" }
        3 :: singletonHistoryState.history.take 19 ∧
     ∀ e ∈ singletonHistoryState.history.take 19,
       e.id ≠ (newHistoryEntry
        { transcribedText := "d", translatedText := "e", targetLanguage := "f" }
        3).id) :=
  ⟨by decide,
   saveToHistory_fresh_clock_unique_id
     { transcribedText := "d", translatedText := "e", targetLanguage := "f" }
     3 true singletonHistoryState (by decide)⟩

/-- Claim C7 counterexample: a failing persist during `deleteHistoryItem`
is not caught — the exception propagates out of the state updater
(modelled as the error result), contradicting the claim that persist
failures are never propagated for every mutation. -/
theorem deleteHistoryItem_persist_failure_propagates :
    deleteHistoryItem 1 false singletonHistoryState =
      Except.error ("Failed to save history to localStorage") := by
  rfl

/-- Claim C7 as amended: an append persists the updated list when the
write succeeds and swallows a persist failure with a diagnostic only,
the in-memory list remaining the updated value either way; a remove
persists the updated list when the write succeeds, but a persist failure
during remove is not caught and propagates, losing the in-memory
update. -/
theorem history_mutation_persistence (entry : HistoryEntryData)
    (clock dId : Nat) (s : AppState) :
    (saveToHistory entry clock true s).history =
      (newHistoryEntry entry clock :: s.history).take 20 ∧
    (saveToHistory entry clock true s).storage =
      some ((newHistoryEntry entry clock :: s.history).take 20) ∧
    (saveToHistory entry clock false s).history =
      (newHistoryEntry entry clock :: s.history).take 20 ∧
    (saveToHistory entry clock false s).storage = s.storage ∧
    deleteHistoryItem dId true s =
      Except.ok { s with
        history := s.history.filter (fun item => item.id ≠ dId)
        storage := some (s.history.filter (fun item => item.id ≠ dId)) } ∧
    deleteHistoryItem dId false s =
      Except.error ("Failed to save history to localStorage") :=
  ⟨rfl, rfl, rfl, rfl, rfl, rfl⟩

/-- Claim C8: invoking stop while the session state is anything other
than Recording is a complete no-op — the state (including every resource
flag, the transcript buffer and both ghost observation logs) is returned
unchanged, because the handler checks the current state first. -/
theorem stopRecording_noop_when_not_recording (outcome : TransOutcome)
    (clock : Nat) (persistOk : Bool) (s : AppState)
    (h : s.recordingState ≠ RecordingState.recording) :
    stopRecording outcome clock persistOk s = s := by
  unfold stopRecording
  rw [if_pos h]

/-- Witness for C8 at the Idle initial state. -/
theorem stopRecording_noop_when_not_recording_witness :
    initialState.recordingState ≠ RecordingState.recording ∧
    stopRecording (TransOutcome.success ("x")) 0 true initialState =
      initialState :=
  ⟨by decide,
   stopRecording_noop_when_not_recording (TransOutcome.success ("x")) 0 true
     initialState (by decide)⟩

/-- Claim C9: invoking the translation invoker on an input that is empty
or consists only of whitespace returns the state completely unchanged —
no remote call (ghost request log unchanged), no history entry, no state
or display change. -/
theorem translateText_whitespace_noop (text language : String)
    (outcome : TransOutcome) (clock : Nat) (persistOk : Bool) (s : AppState)
    (h : ∀ c ∈ text.toList, isJsWhitespace c) :
    translateText text language outcome clock persistOk s = s := by
  unfold translateText
  rw [if_pos (jsTrim_eq_empty_of_whitespace h)]

/-- Witness for C9 at a two-space input. -/
theorem translateText_whitespace_noop_witness :
    (∀ c ∈ ("  ").toList, isJsWhitespace c) ∧
    translateText ("  ") "es" (TransOutcome.success ("x")) 0 true initialState =
      initialState :=
  ⟨by decide,
   translateText_whitespace_noop ("  ") "es" (TransOutcome.success ("x")) 0 true
     initialState (by decide)⟩

/-- Claim C10: when the remote translation call fails the history is
left unchanged; an entry — holding the original text, the translated
text and the resolved language name — is prepended (then truncated to
20) only on success. -/
theorem translateText_history_only_on_success (text language msg tr : String)
    (clock : Nat) (persistOk : Bool) (s : AppState) (h : jsTrim text ≠ "") :
    (translateText text language (TransOutcome.failure msg) clock persistOk
      s).history = s.history ∧
    (translateText text language (TransOutcome.success tr) clock persistOk
      s).history =
      (newHistoryEntry
        { transcribedText := text
          translatedText := tr
          targetLanguage := resolveLanguageName language } clock
        :: s.history).take 20 := by
  unfold translateText
  rw [if_neg h, if_neg h]
  constructor
  · simp [translateTail, translateTextStart, setRecordingState]
  · simp [translateTail, translateTextStart, setRecordingState, saveToHistory]

/-- Witness for C10 at the text `Hi` with both outcomes. -/
theorem translateText_history_only_on_success_witness :
    jsTrim "Hi" ≠ "" ∧
    ((translateText "Hi" "es" (TransOutcome.failure ("boom")) 0 true
        initialState).history = initialState.history ∧
     (translateText "Hi" "es" (TransOutcome.success ("Hola")) 0 true
        initialState).history =
      (newHistoryEntry
        { transcribedText := "Hi"
          translatedText := "Hola"
          targetLanguage := resolveLanguageName "es" } 0
        :: initialState.history).take 20) :=
  ⟨by decide,
   translateText_history_only_on_success "Hi" "es" "boom" "Hola" 0 true
     initialState (by decide)⟩

end EchoTranslate
